import Mathlib

/-!
Verification development for a real-time messaging client (src/react.js).

The program is UI glue over an external auth collaborator and an external
document database.  We shallowly embed the handlers of `react.js`:
pure decision logic becomes Lean functions, the stored collections become
lists of records, server-assigned timestamps become explicit `Timestamp`
parameters supplied by the (external) database, and fallible external
writes become explicit success flags.  JavaScript truthiness of strings
(`""` is falsy) and of possibly-missing fields (`Option`) is modelled
explicitly where the source relies on it.
-/

/-- Timestamps assigned by the external database (`serverTimestamp()`). -/
abbrev Timestamp := Nat

/-- JavaScript truthiness of a possibly-absent string value:
`null`/`undefined` and `""` are falsy, every other string is truthy. -/
def jsTruthyStr : Option String → Bool
  | none => false
  | some s => !s.isEmpty

/-- JavaScript `a || b` on a possibly-absent string, as in
`currentUser?.email || fallback` (react.js line 379) and
`user.email ? ... : ...` (line 52). -/
def jsOrStr (a : Option String) (b : String) : String :=
  match a with
  | some s => if s.isEmpty then b else s
  | none => b

/-- JavaScript `s.trim()`: drop leading and trailing whitespace
characters.  Used by the send and create guards (react.js lines 235, 372). -/
def jsTrim (s : String) : String :=
  String.mk (((s.toList.dropWhile Char.isWhitespace).reverse.dropWhile
    Char.isWhitespace).reverse)

/-- The email local-part: `email.split('@')[0]` (react.js lines 52, 427),
i.e. the characters before the first `@` (the whole string when there is
no `@`). -/
def emailLocalPart (email : String) : String :=
  String.mk (email.toList.takeWhile (fun c => c ≠ '@'))

/-- The anonymous fallback label `` `User-${uid.substring(0, 6)}` ``
(react.js lines 52, 379). -/
def anonLabel (uid : String) : String :=
  "User-" ++ uid.take 6

/-- A profile document as written by the bootstrap `setDoc`
(react.js lines 49–54). -/
structure ProfileRecord where
  uid : String
  email : Option String
  displayName : String
  createdAt : Timestamp
  deriving Repr, DecidableEq

/-- The profile store: the documents under
`artifacts/{appId}/users/{uid}/profile` for all uids. -/
abbrev ProfileDb := List ProfileRecord

/-- `getDoc(userRef)` for a given uid: the read of the profile document
(react.js line 47). -/
def getProfile (db : ProfileDb) (uid : String) : Option ProfileRecord :=
  db.find? (fun r => r.uid == uid)

/-- The display label derived at bootstrap time (react.js line 52):
`user.email ? user.email.split('@')[0] : ` `` `User-${user.uid.substring(0, 6)}` ``. -/
def deriveDisplayName (email : Option String) (uid : String) : String :=
  if jsTruthyStr email then emailLocalPart (email.getD "") else anonLabel uid

/-- The identity-presence bootstrap of `AuthProvider` (react.js lines 45–55):
read the profile document; if it does not exist, create it with the derived
display label.  `now` is the server-assigned creation timestamp. -/
def ensureProfile (db : ProfileDb) (uid : String) (email : Option String)
    (now : Timestamp) : ProfileDb :=
  match getProfile db uid with
  | some _ => db
  | none =>
      db ++ [{ uid := uid, email := email
               displayName := deriveDisplayName email uid
               createdAt := now }]

/-- Number of profile records stored for a given uid. -/
def profileCount (db : ProfileDb) (uid : String) : Nat :=
  (db.filter (fun r => r.uid == uid)).length

/-- A room document in the shared `chats` collection.  `participants` is
`Option` because a stored document may lack the field entirely; the
summary fields are absent until the first message is sent. -/
structure ChatRecord where
  id : String
  name : String
  participants : Option (List String)
  createdAt : Option Timestamp
  lastMessage : Option String
  lastMessageTime : Option Timestamp
  deriving Repr, DecidableEq

/-- The Room Directory's visibility test (react.js line 225):
`chat.participants && chat.participants.includes(userId)`.
A missing `participants` field is falsy, so the room is excluded;
an empty array is truthy in JavaScript, so the `includes` test decides. -/
def visibleChat (userId : String) (chat : ChatRecord) : Bool :=
  match chat.participants with
  | none => false
  | some ps => ps.contains userId

/-- The Room Directory's visible set for one snapshot of the room
collection (react.js lines 223–225): the snapshot filtered by
`visibleChat`. -/
def visibleChats (userId : String) (snapshot : List ChatRecord) : List ChatRecord :=
  snapshot.filter (visibleChat userId)

/-- The participant set of a room record, reading a missing field as the
empty set (a room without the field admits no member). -/
def participantSet (chat : ChatRecord) : List String :=
  chat.participants.getD []

/-- A message document in a room's `messages` sub-collection, as written
by `handleSendMessage` (react.js lines 376–381).  `createdAt` is the
server-resolved timestamp. -/
structure MessageRecord where
  id : String
  text : String
  senderId : String
  senderEmail : String
  createdAt : Timestamp
  deriving Repr, DecidableEq

/-- Timestamp order on messages, the order requested by
`orderBy('createdAt')` (react.js line 353). -/
def msgLe (a b : MessageRecord) : Prop :=
  a.createdAt ≤ b.createdAt

instance : DecidableRel msgLe := fun a b => Nat.decLe a.createdAt b.createdAt

instance : IsTotal MessageRecord msgLe :=
  ⟨fun a b => Nat.le_total a.createdAt b.createdAt⟩

instance : IsTrans MessageRecord msgLe :=
  ⟨fun _ _ _ hab hbc => Nat.le_trans hab hbc⟩

/-- The snapshot the database collaborator delivers for the query
`query(messagesCollectionRef, orderBy('createdAt'))` (react.js line 353):
the stored messages sorted by creation timestamp ascending.  The sort is
performed server-side by the external collaborator; the spec fixes its
meaning as ascending `createdAt` order. -/
def serverMessageSnapshot (store : List MessageRecord) : List MessageRecord :=
  List.insertionSort msgLe store

/-- The client's snapshot handler (react.js line 356):
`snapshot.docs.map(doc => ({ id: doc.id, ...doc.data() }))` — a per-element
projection that keeps the delivered order and performs no client-side
re-sort. -/
def clientSnapshotDocs (docs : List MessageRecord) : List MessageRecord :=
  docs.map (fun d => d)

/-- The Room Transcript's displayed message list for a given stored
message set: the server-ordered snapshot passed through the client
handler (react.js lines 355–357, rendered in order at lines 414–435). -/
def displayedMessages (store : List MessageRecord) : List MessageRecord :=
  clientSnapshotDocs (serverMessageSnapshot store)

/-- A write issued to the database collaborator. -/
inductive WriteOp where
  /-- `addDoc` into a room's `messages` sub-collection (react.js line 376). -/
  | insertMessage (chatId : String) (m : MessageRecord)
  /-- `updateDoc` of a room document's summary fields (react.js line 385). -/
  | updateSummary (chatId : String) (lastMessage : String) (lastMessageTime : Timestamp)
  /-- `addDoc` into the `chats` collection (react.js line 238). -/
  | insertRoom (r : ChatRecord)
  deriving Repr, DecidableEq

/-- The state `handleSendMessage` acts on: the room's stored messages, the
room document, and the local message-input draft (`newMessage`). -/
structure RoomState where
  msgs : List MessageRecord
  room : ChatRecord
  draft : String
  deriving Repr, DecidableEq

/-- `handleSendMessage` (react.js lines 370–394).  Inputs mirror the
context the handler reads: `userId`/`chatId` (absent models a falsy
value), `dbOk` (the `db` handle is available), `userEmail`
(`currentUser?.email`).  `newId` and `now` are the id and timestamp the
external database assigns; `insertOk`/`updateOk` say whether each of the
two awaited writes succeeds (a failed write throws into the single
`catch`, which only logs).  Returns the resulting state and the sequence
of writes that reached the database, in issue order. -/
def handleSendMessage (userId chatId : Option String) (dbOk : Bool)
    (userEmail : Option String) (st : RoomState) (newId : String)
    (now : Timestamp) (insertOk updateOk : Bool) : RoomState × List WriteOp :=
  if (jsTrim st.draft).isEmpty || !dbOk || chatId.isNone || userId.isNone then
    (st, [])
  else
    match userId, chatId with
    | some uid, some cid =>
      if insertOk then
        let msg : MessageRecord :=
          { id := newId, text := jsTrim st.draft, senderId := uid
            senderEmail := jsOrStr userEmail (anonLabel uid), createdAt := now }
        if updateOk then
          ({ msgs := st.msgs ++ [msg]
             room := { st.room with lastMessage := some (jsTrim st.draft)
                                    lastMessageTime := some now }
             draft := "" },
           [.insertMessage cid msg, .updateSummary cid (jsTrim st.draft) now])
        else
          ({ st with msgs := st.msgs ++ [msg] }, [.insertMessage cid msg])
      else (st, [])
    | _, _ => (st, [])

/-- The local state `handleCreateChat` acts on (react.js lines 213–214). -/
structure ChatListState where
  newChatName : String
  showCreateChat : Bool
  deriving Repr, DecidableEq

/-- `handleCreateChat` (react.js lines 234–248): no-op when the trimmed
name is empty; otherwise `addDoc` a room with the trimmed name, the
current user as sole participant and a server-assigned creation
timestamp, then clear the local input.  `ok` says whether the awaited
insert succeeds. -/
def handleCreateChat (userId : String) (st : ChatListState) (newId : String)
    (now : Timestamp) (ok : Bool) : ChatListState × List WriteOp :=
  if (jsTrim st.newChatName).isEmpty then (st, [])
  else
    let r : ChatRecord :=
      { id := newId, name := jsTrim st.newChatName
        participants := some [userId], createdAt := some now
        lastMessage := none, lastMessageTime := none }
    if ok then ({ newChatName := "", showCreateChat := false }, [.insertRoom r])
    else (st, [])

/-- The View Router's screens (react.js line 95). -/
inductive AppView where
  | login
  | chatList
  | chatRoom
  deriving Repr, DecidableEq, BEq

/-- The View Router's state (react.js lines 95–97). -/
structure AppState where
  view : AppView
  selectedChatId : Option String
  selectedChatName : String
  deriving Repr, DecidableEq

/-- The initial router state (react.js lines 95–97): `view` starts at
`chatList` with no room selected. -/
def initialAppState : AppState :=
  { view := .chatList, selectedChatId := none, selectedChatName := "" }

/-- The effect reacting to identity changes (react.js lines 99–105): no
identity forces `login`, an identity forces `chatList`.  It also runs
when loading completes and the context first delivers `currentUser`. -/
def onCurrentUserChanged (currentUser : Option String) (s : AppState) : AppState :=
  if currentUser.isNone then { s with view := .login }
  else { s with view := .chatList }

/-- `handleSelectChat` (react.js lines 107–111). -/
def handleSelectChat (chatId chatName : String) (s : AppState) : AppState :=
  { s with view := .chatRoom, selectedChatId := some chatId
           selectedChatName := chatName }

/-- `handleBackToChatList` (react.js lines 113–117). -/
def handleBackToChatList (s : AppState) : AppState :=
  { s with view := .chatList, selectedChatId := none, selectedChatName := "" }

/-- Whether `ChatRoomScreen` is mounted (react.js line 126): the room
screen renders only when the view is `chatRoom`, an identity is present
and a room id is selected. -/
def chatRoomMounted (currentUser : Option String) (s : AppState) : Bool :=
  s.view == AppView.chatRoom && currentUser.isSome && s.selectedChatId.isSome

/-- Whether the message subscription is held (react.js lines 348–363):
the subscription exists only while `ChatRoomScreen` is mounted and its
effect guard (`db` and `chatId` available, line 349) passes; unmounting
runs the cleanup `unsubscribe` (line 362). -/
def messageSubActive (currentUser : Option String) (dbOk : Bool) (s : AppState) : Bool :=
  chatRoomMounted currentUser s && dbOk

/-- Delivery of a subscription update to the local message list: only an
active subscription replaces the snapshot (react.js lines 355–357); once
released, no further updates are accepted. -/
def messagesAfterUpdate (subActive : Bool)
    (current incoming : List MessageRecord) : List MessageRecord :=
  if subActive then incoming else current

/-- The identifiers imported from the auth module (react.js line 3). -/
def firebaseAuthImports : List String :=
  ["getAuth", "signInWithEmailAndPassword", "createUserWithEmailAndPassword",
   "signOut", "onAuthStateChanged"]

/-- Whether an auth-module identifier is bound in the module scope of
react.js: it must appear in the import list (there is no other binding of
these names); referencing an unbound identifier raises a
`ReferenceError` at the call site. -/
def authIdentifierBound (name : String) : Bool :=
  firebaseAuthImports.contains name

/-- Outcome of one identity-change callback run, as observed from the
Session Manager: the surfaced identity, the auth-collaborator operations
that were actually requested (in order), whether an error was caught and
logged, and whether an exception escaped the callback unhandled. -/
structure AuthOutcome where
  surfacedUserId : Option String
  authRequests : List String
  errorLogged : Bool
  unhandled : Bool
  deriving Repr, DecidableEq

/-- The identity-absent branch of the `onAuthStateChanged` callback
(react.js lines 56–68): clear the current identity; when no
pre-provisioned token is available, evaluate
`try { await signInAnonymously(auth) } catch (error) { console.error }`.
`anonFails` says whether the collaborator would reject the anonymous
sign-in if the call reached it. -/
def handleAuthAbsent (tokenAvailable anonFails : Bool) : AuthOutcome :=
  if tokenAvailable then
    { surfacedUserId := none, authRequests := [], errorLogged := false
      unhandled := false }
  else if authIdentifierBound "signInAnonymously" then
    if anonFails then
      { surfacedUserId := none, authRequests := ["signInAnonymously"]
        errorLogged := true, unhandled := false }
    else
      { surfacedUserId := none, authRequests := ["signInAnonymously"]
        errorLogged := false, unhandled := false }
  else
    { surfacedUserId := none, authRequests := [], errorLogged := true
      unhandled := false }

/-- The custom-token block of the identity-present branch (react.js
lines 35–44): `try { await signInWithCustomToken(auth, token) } catch {
await signInAnonymously(auth) }`.  `tokenSignInFails` says whether the
collaborator would reject the token sign-in if the call reached it.
Returns the requests issued, and whether an exception escaped the
callback (an exception thrown inside the `catch` block is unhandled). -/
def handleCustomTokenBlock (tokenSignInFails : Bool) : List String × Bool :=
  if authIdentifierBound "signInWithCustomToken" then
    if tokenSignInFails then
      if authIdentifierBound "signInAnonymously" then
        (["signInWithCustomToken", "signInAnonymously"], false)
      else
        (["signInWithCustomToken"], true)
    else (["signInWithCustomToken"], false)
  else
    if authIdentifierBound "signInAnonymously" then
      (["signInAnonymously"], false)
    else
      ([], true)

/-! ## Helper lemmas -/

theorem getProfile_append_self (db : ProfileDb) (r : ProfileRecord) (uid : String)
    (h : getProfile db uid = none) (hr : r.uid = uid) :
    getProfile (db ++ [r]) uid = some r := by
  unfold getProfile at *
  rw [List.find?_append, h]
  simp [List.find?, hr]

theorem profileCount_eq_zero_of_find?_none (db : ProfileDb) (uid : String)
    (h : getProfile db uid = none) : profileCount db uid = 0 := by
  unfold getProfile at h
  unfold profileCount
  rw [List.find?_eq_none] at h
  rw [List.filter_eq_nil_iff.mpr]
  · rfl
  · intro a ha
    exact h a ha

theorem contains_eq_of_perm (ps ps' : List String) (a : String)
    (h : ps.Perm ps') : ps.contains a = ps'.contains a := by
  rw [show ps.contains a = decide (a ∈ ps) from List.elem_eq_mem a ps,
      show ps'.contains a = decide (a ∈ ps') from List.elem_eq_mem a ps']
  simp only [h.mem_iff]

/-! ## Claim theorems -/

/-- C1: after the first identity-presence event for an identity (no
profile record yet), a profile record exists for that id, its display
label is the email local-part when the email is present (truthy) and the
truncated-id fallback otherwise; re-triggering the event creates no
second record (idempotent, exactly one record remains), and the
bootstrap write happens only when the read finds no existing record. -/
theorem profile_bootstrap_correct (db : ProfileDb) (uid : String)
    (email email' : Option String) (now now' : Timestamp)
    (hfirst : getProfile db uid = none) :
    (∃ r, getProfile (ensureProfile db uid email now) uid = some r ∧
       r.uid = uid ∧
       r.displayName = (if jsTruthyStr email then emailLocalPart (email.getD "")
                        else anonLabel uid)) ∧
    ensureProfile (ensureProfile db uid email now) uid email' now' =
      ensureProfile db uid email now ∧
    profileCount (ensureProfile db uid email now) uid = 1 ∧
    profileCount (ensureProfile (ensureProfile db uid email now) uid email' now') uid = 1 ∧
    (∀ db2 : ProfileDb, (getProfile db2 uid).isSome → ensureProfile db2 uid email now = db2) := by
  have hins : ensureProfile db uid email now =
      db ++ [{ uid := uid, email := email
               displayName := deriveDisplayName email uid
               createdAt := now }] := by
    unfold ensureProfile
    rw [hfirst]
  have hget : getProfile (ensureProfile db uid email now) uid =
      some { uid := uid, email := email
             displayName := deriveDisplayName email uid
             createdAt := now } := by
    rw [hins]
    exact getProfile_append_self db _ uid hfirst rfl
  have hcount1 : profileCount (ensureProfile db uid email now) uid = 1 := by
    rw [hins]
    unfold profileCount
    rw [List.filter_append]
    have h0 : db.filter (fun r => r.uid == uid) = [] := by
      rw [List.filter_eq_nil_iff]
      intro a ha
      unfold getProfile at hfirst
      rw [List.find?_eq_none] at hfirst
      exact hfirst a ha
    rw [h0]
    simp
  have hnoop : ∀ (db2 : ProfileDb) (e : Option String) (t : Timestamp),
      (getProfile db2 uid).isSome → ensureProfile db2 uid e t = db2 := by
    intro db2 e t h2
    unfold ensureProfile
    rcases hx : getProfile db2 uid with _ | r
    · rw [hx] at h2
      simp at h2
    · rfl
  have hidem : ensureProfile (ensureProfile db uid email now) uid email' now' =
      ensureProfile db uid email now :=
    hnoop _ email' now' (by rw [hget]; rfl)
  refine ⟨⟨_, hget, rfl, rfl⟩, hidem, hcount1, ?_, fun db2 h2 => hnoop db2 email now h2⟩
  rw [hidem, hcount1]

/-- Witness for C1 at a concrete first sign-in: empty store, identity
`alice123` with email `alice@example.com`. -/
theorem profile_bootstrap_correct_witness :
    getProfile [] "alice123" = none ∧
    ((∃ r, getProfile (ensureProfile [] "alice123" (some "alice@example.com") 0) "alice123" = some r ∧
       r.uid = "alice123" ∧
       r.displayName = (if jsTruthyStr (some "alice@example.com") then
                          emailLocalPart ((some "alice@example.com").getD "")
                        else anonLabel "alice123")) ∧
    ensureProfile (ensureProfile [] "alice123" (some "alice@example.com") 0) "alice123" none 1 =
      ensureProfile [] "alice123" (some "alice@example.com") 0 ∧
    profileCount (ensureProfile [] "alice123" (some "alice@example.com") 0) "alice123" = 1 ∧
    profileCount (ensureProfile (ensureProfile [] "alice123" (some "alice@example.com") 0) "alice123" none 1) "alice123" = 1 ∧
    (∀ db2 : ProfileDb, (getProfile db2 "alice123").isSome →
      ensureProfile db2 "alice123" (some "alice@example.com") 0 = db2)) :=
  ⟨by decide, profile_bootstrap_correct [] "alice123" (some "alice@example.com") none 0 1 (by decide)⟩

/-- C2: for every snapshot of the room collection and every current
identity id, a room is in the Room Directory's visible set iff it is in
the snapshot and the identity id is a member of its participant set; the
test is exact membership, unchanged under any reordering of the
participant set. -/
theorem room_directory_visibility (userId : String) (snapshot : List ChatRecord)
    (chat : ChatRecord) (ps ps' : List String) (hperm : ps.Perm ps') :
    (chat ∈ visibleChats userId snapshot ↔
       chat ∈ snapshot ∧ userId ∈ participantSet chat) ∧
    visibleChat userId { chat with participants := some ps } =
      visibleChat userId { chat with participants := some ps' } := by
  constructor
  · unfold visibleChats
    rw [List.mem_filter]
    constructor
    · rintro ⟨hmem, hvis⟩
      refine ⟨hmem, ?_⟩
      unfold visibleChat at hvis
      unfold participantSet
      rcases hp : chat.participants with _ | ps0
      · rw [hp] at hvis
        exact absurd hvis (by simp)
      · rw [hp] at hvis
        simpa using List.elem_iff.mp hvis
    · rintro ⟨hmem, hin⟩
      refine ⟨hmem, ?_⟩
      unfold visibleChat
      unfold participantSet at hin
      rcases hp : chat.participants with _ | ps0
      · rw [hp] at hin
        simp at hin
      · rw [hp] at hin
        simp only [Option.getD_some] at hin
        exact List.elem_iff.mpr hin
  · show ps.contains userId = ps'.contains userId
    exact contains_eq_of_perm ps ps' userId hperm

/-- Witness for C2: room `General` with participants `[u2, u1]`, current
identity `u1`, and the reordering `[u1, u2]`. -/
theorem room_directory_visibility_witness :
    ["u2", "u1"].Perm ["u1", "u2"] ∧
    (({ id := "c1", name := "General", participants := some ["u2", "u1"]
        createdAt := none, lastMessage := none, lastMessageTime := none } : ChatRecord) ∈
       visibleChats "u1"
         [{ id := "c1", name := "General", participants := some ["u2", "u1"]
            createdAt := none, lastMessage := none, lastMessageTime := none }] ↔
     ({ id := "c1", name := "General", participants := some ["u2", "u1"]
        createdAt := none, lastMessage := none, lastMessageTime := none } : ChatRecord) ∈
       [{ id := "c1", name := "General", participants := some ["u2", "u1"]
          createdAt := none, lastMessage := none, lastMessageTime := none }] ∧
     "u1" ∈ participantSet
       { id := "c1", name := "General", participants := some ["u2", "u1"]
         createdAt := none, lastMessage := none, lastMessageTime := none }) ∧
    visibleChat "u1"
      { id := "c1", name := "General", participants := some ["u2", "u1"]
        createdAt := none, lastMessage := none, lastMessageTime := none } =
    visibleChat "u1"
      { id := "c1", name := "General", participants := some ["u1", "u2"]
        createdAt := none, lastMessage := none, lastMessageTime := none } :=
  ⟨by decide,
   room_directory_visibility "u1"
     [{ id := "c1", name := "General", participants := some ["u2", "u1"]
        createdAt := none, lastMessage := none, lastMessageTime := none }]
     { id := "c1", name := "General", participants := some ["u2", "u1"]
       createdAt := none, lastMessage := none, lastMessageTime := none }
     ["u2", "u1"] ["u1", "u2"] (by decide)⟩

/-- C3: the Room Transcript displays exactly the server-ordered snapshot
(the client handler performs no re-sort), that order is ascending
creation-timestamp order, and for messages m1 sent before m2 (so with an
earlier server timestamp) every displayed occurrence of m1 precedes
every displayed occurrence of m2. -/
theorem transcript_order (store : List MessageRecord) (m1 m2 : MessageRecord)
    (h12 : m1.createdAt < m2.createdAt) :
    displayedMessages store = serverMessageSnapshot store ∧
    (displayedMessages store).Sorted msgLe ∧
    m1 ∈ displayedMessages (store ++ [m1, m2]) ∧
    m2 ∈ displayedMessages (store ++ [m1, m2]) ∧
    ∀ (i j : Fin (displayedMessages (store ++ [m1, m2])).length),
      (displayedMessages (store ++ [m1, m2])).get i = m1 →
      (displayedMessages (store ++ [m1, m2])).get j = m2 →
      (i : Nat) < (j : Nat) := by
  have hid : ∀ l : List MessageRecord, displayedMessages l = serverMessageSnapshot l := by
    intro l
    unfold displayedMessages clientSnapshotDocs
    exact List.map_id' _
  have hsorted : ∀ l : List MessageRecord, (displayedMessages l).Sorted msgLe := by
    intro l
    rw [hid]
    exact List.sorted_insertionSort msgLe l
  refine ⟨hid store, hsorted store, ?_, ?_, ?_⟩
  · rw [hid]
    unfold serverMessageSnapshot
    rw [List.mem_insertionSort]
    simp
  · rw [hid]
    unfold serverMessageSnapshot
    rw [List.mem_insertionSort]
    simp
  · intro i j hi hj
    rcases Nat.lt_trichotomy (i : Nat) (j : Nat) with hlt | heq | hgt
    · exact hlt
    · exfalso
      have hij : i = j := Fin.ext heq
      rw [hij, hj] at hi
      rw [hi] at h12
      exact Nat.lt_irrefl _ h12
    · exfalso
      have hrel : msgLe ((displayedMessages (store ++ [m1, m2])).get j)
          ((displayedMessages (store ++ [m1, m2])).get i) :=
        (hsorted (store ++ [m1, m2])).rel_get_of_lt hgt
      rw [hi, hj] at hrel
      exact Nat.lt_irrefl _ (Nat.lt_of_lt_of_le h12 hrel)

/-- Witness for C3: empty prior store, m1 with timestamp 1 sent before
m2 with timestamp 2. -/
theorem transcript_order_witness :
    ({ id := "m1", text := "hello", senderId := "u1", senderEmail := "alice"
       createdAt := 1 } : MessageRecord).createdAt <
      ({ id := "m2", text := "world", senderId := "u1", senderEmail := "alice"
         createdAt := 2 } : MessageRecord).createdAt ∧
    (displayedMessages [] = serverMessageSnapshot [] ∧
     (displayedMessages []).Sorted msgLe ∧
     ({ id := "m1", text := "hello", senderId := "u1", senderEmail := "alice"
        createdAt := 1 } : MessageRecord) ∈ displayedMessages
        ([] ++ [{ id := "m1", text := "hello", senderId := "u1", senderEmail := "alice"
                  createdAt := 1 },
                { id := "m2", text := "world", senderId := "u1", senderEmail := "alice"
                  createdAt := 2 }]) ∧
     ({ id := "m2", text := "world", senderId := "u1", senderEmail := "alice"
        createdAt := 2 } : MessageRecord) ∈ displayedMessages
        ([] ++ [{ id := "m1", text := "hello", senderId := "u1", senderEmail := "alice"
                  createdAt := 1 },
                { id := "m2", text := "world", senderId := "u1", senderEmail := "alice"
                  createdAt := 2 }]) ∧
     ∀ (i j : Fin (displayedMessages
        ([] ++ [{ id := "m1", text := "hello", senderId := "u1", senderEmail := "alice"
                  createdAt := 1 },
                { id := "m2", text := "world", senderId := "u1", senderEmail := "alice"
                  createdAt := 2 }])).length),
       (displayedMessages
        ([] ++ [{ id := "m1", text := "hello", senderId := "u1", senderEmail := "alice"
                  createdAt := 1 },
                { id := "m2", text := "world", senderId := "u1", senderEmail := "alice"
                  createdAt := 2 }])).get i =
         { id := "m1", text := "hello", senderId := "u1", senderEmail := "alice"
           createdAt := 1 } →
       (displayedMessages
        ([] ++ [{ id := "m1", text := "hello", senderId := "u1", senderEmail := "alice"
                  createdAt := 1 },
                { id := "m2", text := "world", senderId := "u1", senderEmail := "alice"
                  createdAt := 2 }])).get j =
         { id := "m2", text := "world", senderId := "u1", senderEmail := "alice"
           createdAt := 2 } →
       (i : Nat) < (j : Nat)) :=
  ⟨by decide,
   transcript_order []
     { id := "m1", text := "hello", senderId := "u1", senderEmail := "alice"
       createdAt := 1 }
     { id := "m2", text := "world", senderId := "u1", senderEmail := "alice"
       createdAt := 2 } (by decide)⟩

/-- C4: a validated send performs exactly two writes in order — the
message insert (trimmed text, sender id, sender label snapshot,
server-assigned timestamp), then the room-summary update touching only
`lastMessage`/`lastMessageTime`, with id, name, participants and
creation timestamp unchanged; the writes are not atomic: if the update
fails after the insert, the message is persisted and the room document
is left entirely stale. -/
theorem send_message_two_writes (uid cid : String) (userEmail : Option String)
    (st : RoomState) (newId : String) (now : Timestamp)
    (hdraft : (jsTrim st.draft).isEmpty = false) :
    handleSendMessage (some uid) (some cid) true userEmail st newId now true true =
      ({ msgs := st.msgs ++ [{ id := newId, text := jsTrim st.draft, senderId := uid
                               senderEmail := jsOrStr userEmail (anonLabel uid)
                               createdAt := now }]
         room := { st.room with lastMessage := some (jsTrim st.draft)
                                lastMessageTime := some now }
         draft := "" },
       [WriteOp.insertMessage cid
          { id := newId, text := jsTrim st.draft, senderId := uid
            senderEmail := jsOrStr userEmail (anonLabel uid), createdAt := now },
        WriteOp.updateSummary cid (jsTrim st.draft) now]) ∧
    ((handleSendMessage (some uid) (some cid) true userEmail st newId now true true).1.room.id = st.room.id ∧
     (handleSendMessage (some uid) (some cid) true userEmail st newId now true true).1.room.name = st.room.name ∧
     (handleSendMessage (some uid) (some cid) true userEmail st newId now true true).1.room.participants = st.room.participants ∧
     (handleSendMessage (some uid) (some cid) true userEmail st newId now true true).1.room.createdAt = st.room.createdAt) ∧
    handleSendMessage (some uid) (some cid) true userEmail st newId now true false =
      ({ msgs := st.msgs ++ [{ id := newId, text := jsTrim st.draft, senderId := uid
                               senderEmail := jsOrStr userEmail (anonLabel uid)
                               createdAt := now }]
         room := st.room, draft := st.draft },
       [WriteOp.insertMessage cid
          { id := newId, text := jsTrim st.draft, senderId := uid
            senderEmail := jsOrStr userEmail (anonLabel uid), createdAt := now }]) := by
  unfold handleSendMessage
  simp [hdraft]

/-- Witness for C4: draft `" hello "` in room `c1` for identity `u1`
with a stored email. -/
theorem send_message_two_writes_witness :
    (jsTrim (RoomState.mk []
      { id := "c1", name := "General", participants := some ["u1"]
        createdAt := some 0, lastMessage := none, lastMessageTime := none }
      " hello ").draft).isEmpty = false ∧
    handleSendMessage (some "u1") (some "c1") true (some "alice@example.com")
      (RoomState.mk []
        { id := "c1", name := "General", participants := some ["u1"]
          createdAt := some 0, lastMessage := none, lastMessageTime := none }
        " hello ") "m1" 5 true true =
      ({ msgs := [] ++ [{ id := "m1"
                          text := jsTrim (RoomState.mk []
                            { id := "c1", name := "General", participants := some ["u1"]
                              createdAt := some 0, lastMessage := none, lastMessageTime := none }
                            " hello ").draft
                          senderId := "u1"
                          senderEmail := jsOrStr (some "alice@example.com") (anonLabel "u1")
                          createdAt := 5 }]
         room := { id := "c1", name := "General", participants := some ["u1"]
                   createdAt := some 0
                   lastMessage := some (jsTrim (RoomState.mk []
                     { id := "c1", name := "General", participants := some ["u1"]
                       createdAt := some 0, lastMessage := none, lastMessageTime := none }
                     " hello ").draft)
                   lastMessageTime := some 5 }
         draft := "" },
       [WriteOp.insertMessage "c1"
          { id := "m1"
            text := jsTrim (RoomState.mk []
              { id := "c1", name := "General", participants := some ["u1"]
                createdAt := some 0, lastMessage := none, lastMessageTime := none }
              " hello ").draft
            senderId := "u1"
            senderEmail := jsOrStr (some "alice@example.com") (anonLabel "u1")
            createdAt := 5 },
        WriteOp.updateSummary "c1"
          (jsTrim (RoomState.mk []
            { id := "c1", name := "General", participants := some ["u1"]
              createdAt := some 0, lastMessage := none, lastMessageTime := none }
            " hello ").draft) 5]) :=
  ⟨by decide,
   ((send_message_two_writes "u1" "c1" (some "alice@example.com")
      (RoomState.mk []
        { id := "c1", name := "General", participants := some ["u1"]
          createdAt := some 0, lastMessage := none, lastMessageTime := none }
        " hello ") "m1" 5 (by decide)).1)⟩

/-- C5: when the trimmed draft is empty, or the identity, database
handle, or room id is absent, `handleSendMessage` is a no-op: the state
(messages, room document, draft) is unchanged and no write reaches the
database. -/
theorem send_message_noop (userId chatId : Option String) (dbOk : Bool)
    (userEmail : Option String) (st : RoomState) (newId : String)
    (now : Timestamp) (insertOk updateOk : Bool)
    (h : (jsTrim st.draft).isEmpty = true ∨ dbOk = false ∨
         chatId = none ∨ userId = none) :
    handleSendMessage userId chatId dbOk userEmail st newId now insertOk updateOk =
      (st, []) := by
  unfold handleSendMessage
  rcases h with h | h | h | h <;> simp [h]

/-- Witness for C5: a whitespace-only draft with identity, database and
room id all present. -/
theorem send_message_noop_witness :
    ((jsTrim (RoomState.mk []
        { id := "c1", name := "General", participants := some ["u1"]
          createdAt := some 0, lastMessage := none, lastMessageTime := none }
        "   ").draft).isEmpty = true ∨ true = false ∨
      (some "c1" : Option String) = none ∨ (some "u1" : Option String) = none) ∧
    handleSendMessage (some "u1") (some "c1") true (some "alice@example.com")
      (RoomState.mk []
        { id := "c1", name := "General", participants := some ["u1"]
          createdAt := some 0, lastMessage := none, lastMessageTime := none }
        "   ") "m1" 5 true true =
      (RoomState.mk []
        { id := "c1", name := "General", participants := some ["u1"]
          createdAt := some 0, lastMessage := none, lastMessageTime := none }
        "   ", []) :=
  ⟨Or.inl (by decide),
   send_message_noop (some "u1") (some "c1") true (some "alice@example.com")
     (RoomState.mk []
       { id := "c1", name := "General", participants := some ["u1"]
         createdAt := some 0, lastMessage := none, lastMessageTime := none }
       "   ") "m1" 5 true true (Or.inl (by decide))⟩

/-- C6: create-room with an empty trimmed name changes nothing and
produces no write; with a non-empty trimmed name it inserts exactly one
new room record whose name is the trimmed input, whose participant set
contains exactly the current identity id, and whose creation timestamp
is the server-assigned one. -/
theorem create_room_correct (userId nm : String) (showFlag : Bool)
    (newId : String) (now : Timestamp) :
    handleCreateChat userId { newChatName := nm, showCreateChat := showFlag } newId now true =
      (if (jsTrim nm).isEmpty then
         ({ newChatName := nm, showCreateChat := showFlag }, [])
       else
         ({ newChatName := "", showCreateChat := false },
          [WriteOp.insertRoom
             { id := newId, name := jsTrim nm
               participants := some [userId], createdAt := some now
               lastMessage := none, lastMessageTime := none }])) ∧
    ∀ p : String,
      p ∈ participantSet
            { id := newId, name := jsTrim nm
              participants := some [userId], createdAt := some now
              lastMessage := none, lastMessageTime := none } ↔ p = userId := by
  constructor
  · unfold handleCreateChat
    rcases h : (jsTrim nm).isEmpty with _ | _ <;> simp [h]
  · intro p
    unfold participantSet
    simp

/-- C7: the router's initial view is the room list; once loading
completes with no identity the view is corrected to login; and an
identity-absence event observed while the room transcript is shown
transitions in one step to login (never through the room list), after
which the message subscription is released and a delivered update no
longer changes the local message list. -/
theorem view_router_sign_out (s : AppState) (dbOk : Bool)
    (cur inc : List MessageRecord)
    (_hroom : s.view = AppView.chatRoom) :
    initialAppState.view = AppView.chatList ∧
    (onCurrentUserChanged none initialAppState).view = AppView.login ∧
    (onCurrentUserChanged none s).view = AppView.login ∧
    (onCurrentUserChanged none s).view ≠ AppView.chatList ∧
    messageSubActive none dbOk (onCurrentUserChanged none s) = false ∧
    messagesAfterUpdate (messageSubActive none dbOk (onCurrentUserChanged none s))
      cur inc = cur := by
  refine ⟨rfl, rfl, rfl, by simp [onCurrentUserChanged], ?_, ?_⟩
  · unfold messageSubActive chatRoomMounted
    simp [onCurrentUserChanged]
  · unfold messagesAfterUpdate messageSubActive chatRoomMounted
    simp [onCurrentUserChanged]

/-- Witness for C7: signed-out while viewing room `c1`. -/
theorem view_router_sign_out_witness :
    (AppState.mk AppView.chatRoom (some "c1") "General").view = AppView.chatRoom ∧
    (initialAppState.view = AppView.chatList ∧
     (onCurrentUserChanged none initialAppState).view = AppView.login ∧
     (onCurrentUserChanged none (AppState.mk AppView.chatRoom (some "c1") "General")).view = AppView.login ∧
     (onCurrentUserChanged none (AppState.mk AppView.chatRoom (some "c1") "General")).view ≠ AppView.chatList ∧
     messageSubActive none true
       (onCurrentUserChanged none (AppState.mk AppView.chatRoom (some "c1") "General")) = false ∧
     messagesAfterUpdate
       (messageSubActive none true
         (onCurrentUserChanged none (AppState.mk AppView.chatRoom (some "c1") "General")))
       [] [{ id := "m1", text := "late", senderId := "u2", senderEmail := "bob"
             createdAt := 9 }] = []) :=
  ⟨rfl,
   view_router_sign_out (AppState.mk AppView.chatRoom (some "c1") "General") true
     [] [{ id := "m1", text := "late", senderId := "u2", senderEmail := "bob"
           createdAt := 9 }] rfl⟩

/-- C8 (code evaluation at the failing input): `signInAnonymously` and
`signInWithCustomToken` are not among the identifiers imported from the
auth module (react.js line 3), so on an identity-absence event with no
pre-provisioned token the callback raises a `ReferenceError` that is
caught and logged, and no anonymous sign-in request reaches the auth
collaborator; likewise the custom-token block can neither sign in with
the token nor fall back to anonymous sign-in — it issues no request and
lets the exception escape. -/
theorem anonymous_sign_in_never_requested :
    authIdentifierBound "signInAnonymously" = false ∧
    authIdentifierBound "signInWithCustomToken" = false ∧
    (∀ anonFails : Bool, handleAuthAbsent false anonFails =
      { surfacedUserId := none, authRequests := [], errorLogged := true
        unhandled := false }) ∧
    (∀ tokenSignInFails : Bool,
      handleCustomTokenBlock tokenSignInFails = ([], true)) := by
  refine ⟨by decide, by decide, ?_, ?_⟩
  · intro anonFails
    rcases anonFails with _ | _ <;> decide
  · intro tokenSignInFails
    rcases tokenSignInFails with _ | _ <;> decide

/-- C9: for a validated send, the draft is cleared exactly when both the
message insert and the room-summary update succeed; on any write error
the draft is left unchanged. -/
theorem draft_cleared_iff_writes_succeed (uid cid : String)
    (userEmail : Option String) (st : RoomState) (newId : String)
    (now : Timestamp) (insertOk updateOk : Bool)
    (hdraft : (jsTrim st.draft).isEmpty = false) :
    ((handleSendMessage (some uid) (some cid) true userEmail st newId now
        insertOk updateOk).1.draft = "" ↔
      (insertOk = true ∧ updateOk = true)) ∧
    (¬(insertOk = true ∧ updateOk = true) →
      (handleSendMessage (some uid) (some cid) true userEmail st newId now
        insertOk updateOk).1.draft = st.draft) := by
  have hne : st.draft ≠ "" := by
    intro h0
    rw [h0] at hdraft
    exact absurd hdraft (by decide)
  unfold handleSendMessage
  rcases insertOk with _ | _ <;> rcases updateOk with _ | _ <;>
    simp [hdraft, hne]

/-- Witness for C9: validated draft `"hi"`, insert succeeds but the
summary update fails, so the draft is kept. -/
theorem draft_cleared_iff_writes_succeed_witness :
    (jsTrim (RoomState.mk []
      { id := "c1", name := "General", participants := some ["u1"]
        createdAt := some 0, lastMessage := none, lastMessageTime := none }
      "hi").draft).isEmpty = false ∧
    (((handleSendMessage (some "u1") (some "c1") true none
        (RoomState.mk []
          { id := "c1", name := "General", participants := some ["u1"]
            createdAt := some 0, lastMessage := none, lastMessageTime := none }
          "hi") "m1" 5 true false).1.draft = "" ↔
      (true = true ∧ false = true)) ∧
    (¬(true = true ∧ false = true) →
      (handleSendMessage (some "u1") (some "c1") true none
        (RoomState.mk []
          { id := "c1", name := "General", participants := some ["u1"]
            createdAt := some 0, lastMessage := none, lastMessageTime := none }
          "hi") "m1" 5 true false).1.draft =
        (RoomState.mk []
          { id := "c1", name := "General", participants := some ["u1"]
            createdAt := some 0, lastMessage := none, lastMessageTime := none }
          "hi").draft)) :=
  ⟨by decide,
   draft_cleared_iff_writes_succeed "u1" "c1" none
     (RoomState.mk []
       { id := "c1", name := "General", participants := some ["u1"]
         createdAt := some 0, lastMessage := none, lastMessageTime := none }
       "hi") "m1" 5 true false (by decide)⟩

/-- C10: the visibility filter is total over room records: a room record
whose `participants` field is absent evaluates to not-visible and is
excluded from every visible set, rather than failing the membership
test. -/
theorem missing_participants_excluded (userId : String)
    (snapshot : List ChatRecord) (chat : ChatRecord)
    (h : chat.participants = none) :
    visibleChat userId chat = false ∧
    chat ∉ visibleChats userId snapshot := by
  have hv : visibleChat userId chat = false := by
    unfold visibleChat
    rw [h]
  refine ⟨hv, ?_⟩
  intro hmem
  unfold visibleChats at hmem
  rw [List.mem_filter] at hmem
  rw [hv] at hmem
  exact absurd hmem.2 (by decide)

/-- Witness for C10: a room record with no `participants` field inside a
one-element snapshot. -/
theorem missing_participants_excluded_witness :
    ({ id := "c9", name := "Legacy", participants := none
       createdAt := none, lastMessage := none, lastMessageTime := none } : ChatRecord).participants = none ∧
    (visibleChat "u1"
      { id := "c9", name := "Legacy", participants := none
        createdAt := none, lastMessage := none, lastMessageTime := none } = false ∧
     ({ id := "c9", name := "Legacy", participants := none
        createdAt := none, lastMessage := none, lastMessageTime := none } : ChatRecord) ∉
       visibleChats "u1"
         [{ id := "c9", name := "Legacy", participants := none
            createdAt := none, lastMessage := none, lastMessageTime := none }]) :=
  ⟨rfl,
   missing_participants_excluded "u1"
     [{ id := "c9", name := "Legacy", participants := none
        createdAt := none, lastMessage := none, lastMessageTime := none }]
     { id := "c9", name := "Legacy", participants := none
       createdAt := none, lastMessage := none, lastMessageTime := none } rfl⟩
